import Mathlib

/-!
Verification development for the DarkSphere control plane.

The Python sources under src/ are embedded shallowly: pure helpers become
Lean functions, request handlers become functions from their inputs (request
data, transport outcomes, values returned by the database) to their response
value together with the list of database statements they execute.  The
routing/health/breaker/ledger business logic of the repository lives in SQL
stored procedures that are not part of the source tree; those components are
modelled from the specification text and are marked as such in their doc
comments.
-/

/- ================================================================
   Python dynamic values (for fields whose runtime type is checked)
   ================================================================ -/

/-- A JSON-ish Python value, for request fields whose type the source checks
with isinstance.  pyBool is separate because Python booleans satisfy
isinstance(x, int) with values 1 and 0. -/
inductive PyVal
  | pyStr (s : String)
  | pyInt (n : Int)
  | pyBool (b : Bool)
  | pyList (xs : List PyVal)

/-- isinstance(v, int) in Python (booleans count as integers). -/
def pyIsInt : PyVal → Bool
  | PyVal.pyInt _ => true
  | PyVal.pyBool _ => true
  | _ => false

/-- Integer value of a Python value known to be an int (True = 1, False = 0). -/
def pyToInt : PyVal → Int
  | PyVal.pyInt n => n
  | PyVal.pyBool b => if b then 1 else 0
  | _ => 0

/-- isinstance(v, list) in Python. -/
def pyIsList : PyVal → Bool
  | PyVal.pyList _ => true
  | _ => false

/- ================================================================
   src/src/api/agent_registration.py : endpoint URL validation
   ================================================================ -/

/-- The punctuation characters of the URL regex character class in
validate_endpoint_url (Char.ofNat 39 is the single-quote character). -/
def urlBodyPunct : List Char :=
  ['-', '.', '_', '~', ':', '/', '?', '#', '[', ']', '@', '!', '$', '&',
   Char.ofNat 39, '(', ')', '*', '+', ',', ';', '=']

/-- Membership in the regex class that may repeat after the first host char. -/
def isUrlBodyChar (c : Char) : Bool :=
  c.isAlpha || c.isDigit || urlBodyPunct.contains c

/-- Membership in the regex class required for the first char after the
scheme, which the pattern writes as one char of a-zA-Z0-9. -/
def isUrlFirstChar (c : Char) : Bool :=
  c.isAlpha || c.isDigit

/-- Match of the regex part after the scheme: one a-zA-Z0-9 char followed by
any number of body-class characters. -/
def urlTailMatch : List Char → Bool
  | [] => false
  | c :: rest => isUrlFirstChar c && rest.all isUrlBodyChar

/-- Match of the regex from the colon of the scheme separator onwards. -/
def urlSchemeRest : List Char → Bool
  | ':' :: '/' :: '/' :: rest => urlTailMatch rest
  | _ => false

/-- Match of the full regex body of validate_endpoint_url, with http then an
optional s then the separator and the tail. -/
def urlRegexMatch (cs : List Char) : Bool :=
  match cs with
  | 'h' :: 't' :: 't' :: 'p' :: rest =>
    (match rest with
     | 's' :: r => urlSchemeRest r || urlSchemeRest rest
     | _ => urlSchemeRest rest)
  | _ => false

/-- Python re.match with a trailing dollar anchor also accepts one final
newline after the matched text (Char.ofNat 10 is the newline character). -/
def urlRegexMatchPy (cs : List Char) : Bool :=
  urlRegexMatch cs ||
    (match cs.getLast? with
     | some c => c == Char.ofNat 10 && urlRegexMatch cs.dropLast
     | none => false)

/-- validate_endpoint_url from agent_registration.py: the URL must match the
anchored http(s) regex and be under 500 characters. -/
def validate_endpoint_url (url : String) : Bool :=
  urlRegexMatchPy url.toList && url.length < 500

/- ================================================================
   src/src/api/agent_registration.py : registration validation
   ================================================================ -/

/-- ALLOWED_AGENT_TYPES from agent_registration.py. -/
def ALLOWED_AGENT_TYPES : List String := ["general", "specialized", "mcp", "custom"]

/-- Registration request body.  The three text fields are strings in the
documented schema; a missing field and a present-but-empty field are both
rejected by the required-field loop, so they are modelled as Option String
with none for absent.  The two fields whose runtime type the source
inspects are modelled as Option PyVal. -/
structure RegData where
  registration_secret : Option String
  agent_name : Option String
  agent_type : Option String
  endpoint_url : Option String
  max_concurrent_sessions : Option PyVal
  capabilities : Option PyVal
  metadata : Option String

/-- validate_agent_registration from agent_registration.py, returning the
(is_valid, error) pair.  The required-field loop runs over agent_name,
agent_type, endpoint_url in order and fails on an absent or falsy (empty)
value; then name length, agent type, endpoint format,
max_concurrent_sessions (default 10) and capabilities (default empty list)
are checked in the order of the source. -/
def validate_agent_registration (d : RegData) : Bool × Option String :=
  if d.agent_name.getD "" == "" then
    (false, some "Missing required field: agent_name")
  else if d.agent_type.getD "" == "" then
    (false, some "Missing required field: agent_type")
  else if d.endpoint_url.getD "" == "" then
    (false, some "Missing required field: endpoint_url")
  else if (d.agent_name.getD "").length < 3 || (d.agent_name.getD "").length > 100 then
    (false, some "Agent name must be between 3 and 100 characters")
  else if !(ALLOWED_AGENT_TYPES.contains (d.agent_type.getD "")) then
    (false, some "Invalid agent_type")
  else if !(validate_endpoint_url (d.endpoint_url.getD "")) then
    (false, some "Invalid endpoint_url format")
  else if !(pyIsInt (d.max_concurrent_sessions.getD (PyVal.pyInt 10)))
          || pyToInt (d.max_concurrent_sessions.getD (PyVal.pyInt 10)) < 1
          || pyToInt (d.max_concurrent_sessions.getD (PyVal.pyInt 10)) > 1000 then
    (false, some "max_concurrent_sessions must be between 1 and 1000")
  else if !(pyIsList (d.capabilities.getD (PyVal.pyList []))) then
    (false, some "capabilities must be an array")
  else
    (true, none)

/- ================================================================
   src/src/api/agent_registration.py : the register_agent handler
   ================================================================ -/

/-- A credential value as handed around by the handler: either the raw API
key or the bcrypt digest derived from a key (the derivation itself is
one-way and is kept symbolic). -/
inductive Cred
  | raw (key : String)
  | bcryptHash (key : String)
deriving DecidableEq

/-- A parameter of a database statement. -/
inductive DbParam
  | str (s : String)
  | cred (c : Cred)
  | json (v : PyVal)

/-- One database statement executed by a handler, with its parameters. -/
structure DbCall where
  stmt : String
  params : List DbParam

/-- HTTP response of the register_agent handler. -/
inductive RegisterResponse
  | forbidden
  | badRequest (error : String)
  | created (agentId : String) (returnedApiKey : String)
deriving DecidableEq

/-- The register_agent handler from agent_registration.py, from the parsed
request body to the response and the database statements it executes.
secretConfig is the REGISTRATION_SECRET configuration value, api_key the
key produced by generate_api_key, and agentIdFromDb the agent_id row the
first statement returns.  The handler computes api_key_hash with bcrypt
and then executes the register_agent stored procedure with the raw
api_key as its fourth parameter, exactly as the source does. -/
def register_agent (secretConfig : String) (d : RegData) (api_key : String)
    (agentIdFromDb : String) : RegisterResponse × List DbCall :=
  if d.registration_secret.getD "" == "" || !(d.registration_secret.getD "" == secretConfig) then
    (RegisterResponse.forbidden, [])
  else if !(validate_agent_registration d).1 then
    (RegisterResponse.badRequest ((validate_agent_registration d).2.getD ""), [])
  else
    let api_key_hash := Cred.bcryptHash api_key
    let registerCall : DbCall :=
      { stmt := "SELECT register_agent"
        params := [DbParam.str (d.agent_name.getD ""),
                   DbParam.str (d.agent_type.getD ""),
                   DbParam.str (d.endpoint_url.getD ""),
                   DbParam.cred (Cred.raw api_key),
                   DbParam.json (d.capabilities.getD (PyVal.pyList []))] }
    let updateCall : DbCall :=
      { stmt := "UPDATE agent_registry SET max_concurrent_sessions, metadata"
        params := [DbParam.json (d.max_concurrent_sessions.getD (PyVal.pyInt 10)),
                   DbParam.str (d.metadata.getD ""),
                   DbParam.str agentIdFromDb] }
    let _ := api_key_hash
    (RegisterResponse.created agentIdFromDb api_key, [registerCall, updateCall])

/-- All parameters handed to the persistence layer by a list of statements. -/
def allDbParams (calls : List DbCall) : List DbParam :=
  (calls.map DbCall.params).flatten

/-- Whether a database parameter is the raw (underived) key k. -/
def dbParamIsRawKey (k : String) : DbParam → Bool
  | DbParam.cred (Cred.raw s) => s == k
  | _ => false

/-- Whether a database parameter is the bcrypt digest derived from key k. -/
def dbParamIsHashOfKey (k : String) : DbParam → Bool
  | DbParam.cred (Cred.bcryptHash s) => s == k
  | _ => false

/- ================================================================
   src/src/api/agent_registration.py : update validation and update
   ================================================================ -/

/-- Update request body of the update_agent handler.  Presence of a field
is what the source tests with the in operator, so every field is an
Option; metadata content is irrelevant to every check and is kept as a
string. -/
structure UpdateData where
  agent_name : Option String
  endpoint_url : Option String
  max_concurrent_sessions : Option PyVal
  capabilities : Option PyVal
  metadata : Option String

/-- validate_agent_update from agent_registration.py: at least one updatable
field must be present; endpoint_url, max_concurrent_sessions and
capabilities are checked only when present; agent_name and metadata are
never checked beyond presence. -/
def validate_agent_update (d : UpdateData) : Bool × Option String :=
  if !(d.agent_name.isSome || d.endpoint_url.isSome || d.max_concurrent_sessions.isSome
       || d.capabilities.isSome || d.metadata.isSome) then
    (false, some "At least one updatable field must be provided")
  else if d.endpoint_url.isSome && !(validate_endpoint_url (d.endpoint_url.getD "")) then
    (false, some "Invalid endpoint_url format")
  else if d.max_concurrent_sessions.isSome
          && (!(pyIsInt (d.max_concurrent_sessions.getD (PyVal.pyInt 10)))
              || pyToInt (d.max_concurrent_sessions.getD (PyVal.pyInt 10)) < 1
              || pyToInt (d.max_concurrent_sessions.getD (PyVal.pyInt 10)) > 1000) then
    (false, some "max_concurrent_sessions must be between 1 and 1000")
  else if d.capabilities.isSome && !(pyIsList (d.capabilities.getD (PyVal.pyList []))) then
    (false, some "capabilities must be an array")
  else
    (true, none)

/-- A row of the agent_registry table, with the columns the update_agent
handler touches. -/
structure AgentRegistryRow where
  agent_id : String
  agent_name : String
  agent_type : String
  endpoint_url : String
  max_concurrent_sessions : Int
  capabilities : PyVal
  metadata : String
  last_seen : Nat

/-- The SET clause the update_agent handler builds: each field present in
the request overwrites the column, and last_seen is always touched. -/
def apply_agent_update (a : AgentRegistryRow) (d : UpdateData) (now : Nat) : AgentRegistryRow :=
  { a with
    agent_name := d.agent_name.getD a.agent_name,
    endpoint_url := d.endpoint_url.getD a.endpoint_url,
    max_concurrent_sessions :=
      match d.max_concurrent_sessions with
      | some v => pyToInt v
      | none => a.max_concurrent_sessions,
    capabilities := d.capabilities.getD a.capabilities,
    metadata := d.metadata.getD a.metadata,
    last_seen := now }

/- ================================================================
   src/src/api/agent_registration.py : the deactivate_agent handler
   ================================================================ -/

/-- A row of the agent_registry table, with the columns the
deactivate_agent handler touches. -/
structure PAgentRow where
  agent_id : String
  status : String
  last_seen : Nat
deriving DecidableEq

/-- A row of the agent_sessions table, with the columns the handlers of
agent_registration.py and mcp_adapter.py touch. -/
structure PSessionRow where
  session_id : String
  agent_id : String
  is_active : Bool
  conversation_context : List String
  last_activity : Nat
  total_messages_received : Nat
deriving DecidableEq

/-- The two tables the deactivate_agent handler updates. -/
structure DbState where
  agent_registry : List PAgentRow
  agent_sessions : List PSessionRow
deriving DecidableEq

/-- The deactivate_agent handler from agent_registration.py, after its API
key check: one UPDATE sets the agent row to status inactive touching
last_seen, and a second UPDATE sets is_active to FALSE on every session
row of that agent that is currently active. -/
def deactivate_agent (db : DbState) (agent_id : String) (now : Nat) : DbState :=
  { agent_registry := db.agent_registry.map (fun a =>
      if a.agent_id == agent_id then { a with status := "inactive", last_seen := now } else a),
    agent_sessions := db.agent_sessions.map (fun s =>
      if s.agent_id == agent_id && s.is_active then { s with is_active := false } else s) }

/- ================================================================
   src/src/agents/mcp_adapter.py : MCP messaging and its effects
   ================================================================ -/

/-- An MCP response message, reduced to the fields the adapter inspects:
its type tag and the response text of a chat payload. -/
structure MCPMsg where
  type : String
  payloadResponse : Option String
deriving DecidableEq

/-- Outcome of the bounded outbound HTTP post of send_mcp_message. -/
inductive TransportOutcome
  | httpResponse (status : Nat) (body : MCPMsg)
  | timeout
  | connectionError
deriving DecidableEq

/-- Database effects the adapter can execute. -/
inductive DbEffect
  | recordHealthCheck (agent_id : String) (status : String)
      (response_time_ms : Option Nat) (status_code : Option Nat) (error_message : Option String)
  | recordCircuitBreakerEvent (component : String) (endpoint : String) (success : Bool)
  | updateSessionContext (session_id : String) (messages : List String)
deriving DecidableEq

/-- send_mcp_message from mcp_adapter.py as a function of the transport
outcome.  A 200 response yields the parsed message; any other status
yields None; a timeout is caught by the except asyncio.TimeoutError arm
and yields None; any other exception is caught by the final except arm
and yields None.  The Except layer records whether an exception escapes
to the caller: no arm ever produces Except.error. -/
def send_mcp_message (outcome : TransportOutcome) : Except String (Option MCPMsg) :=
  match outcome with
  | TransportOutcome.httpResponse 200 body => Except.ok (some body)
  | TransportOutcome.httpResponse _ _ => Except.ok none
  | TransportOutcome.timeout => Except.ok none
  | TransportOutcome.connectionError => Except.ok none

/-- send_health_check from mcp_adapter.py: agent is the agent row looked up
by get_agent_by_id (none when absent or inactive).  A health.ack response
records a healthy check with the measured latency and status 200; any
other outcome, a timeout included, records an unhealthy check with the
message the source uses.  The returned pair is the boolean result and the
database statements executed. -/
def send_health_check (agent : Option String) (outcome : TransportOutcome)
    (response_time_ms : Nat) : Except String (Bool × List DbEffect) :=
  match agent with
  | none => Except.ok (false, [])
  | some aid =>
    match send_mcp_message outcome with
    | Except.error e => Except.error e
    | Except.ok (some resp) =>
      if resp.type == "health.ack" then
        Except.ok (true, [DbEffect.recordHealthCheck aid "healthy"
          (some response_time_ms) (some 200) none])
      else
        Except.ok (false, [DbEffect.recordHealthCheck aid "unhealthy"
          none none (some "No valid MCP response")])
    | Except.ok none =>
      Except.ok (false, [DbEffect.recordHealthCheck aid "unhealthy"
        none none (some "No valid MCP response")])

/-- send_chat_request from mcp_adapter.py: agent and context are the
lookups of get_agent_by_id and get_session_context; either missing makes
the call return None with no effect.  A chat.response reply is appended
to the session context via update_session_context; any other outcome, a
timeout included, returns None and executes nothing. -/
def send_chat_request (agent : Option String) (context : Option (List String))
    (session_id : String) (message : String) (outcome : TransportOutcome) :
    Except String (Option String × List DbEffect) :=
  match agent with
  | none => Except.ok (none, [])
  | some _ =>
    match context with
    | none => Except.ok (none, [])
    | some _ =>
      match send_mcp_message outcome with
      | Except.error e => Except.error e
      | Except.ok (some resp) =>
        if resp.type == "chat.response" then
          Except.ok (resp.payloadResponse,
            [DbEffect.updateSessionContext session_id [message, resp.payloadResponse.getD ""]])
        else
          Except.ok (none, [])
      | Except.ok none => Except.ok (none, [])

/-- update_session_context from mcp_adapter.py: the UPDATE appends the new
message contents to conversation_context with the array concatenation
operator, touches last_activity and adds to the received counter. -/
def update_session_context (db : DbState) (session_id : String)
    (new_messages : List String) (now : Nat) : DbState :=
  { db with agent_sessions := db.agent_sessions.map (fun s =>
      if s.session_id == session_id then
        { s with conversation_context := s.conversation_context ++ new_messages,
                 last_activity := now,
                 total_messages_received := s.total_messages_received + new_messages.length }
      else s) }

/-- Whether a database effect is a circuit-breaker failure event. -/
def isCBFailureEvent : DbEffect → Bool
  | DbEffect.recordCircuitBreakerEvent _ _ success => !success
  | _ => false

/- ================================================================
   HealthMonitor (spec section 4.2)
   ================================================================ -/

/-- Modelled from the spec: agent lifecycle status of the AgentRegistry
(section 3); the record_health_check stored procedure that mutates it is
not under src/. -/
inductive AgentStatus
  | active
  | inactive
deriving DecidableEq

/-- Modelled from the spec: a probe outcome as consumed by
HealthMonitor.recordCheck (section 4.2). -/
inductive Outcome
  | healthy
  | unhealthy
deriving DecidableEq

/-- Modelled from the spec: the HealthSummary record of section 3 — health
score, rolling latency data over the last 20 observations, and the
consecutive-failure count.  The record_health_check stored procedure
that maintains it is not under src/. -/
structure HealthSummary where
  healthScore : Rat
  latencies : List Rat
  avgLatency : Rat
  consecutiveFailures : Nat
deriving DecidableEq

/-- Modelled from the spec: the derived health status of section 4.2. -/
inductive DerivedHealth
  | healthy
  | degraded
  | unhealthy
deriving DecidableEq

/-- Modelled from the spec: clamp(0, 100, x) of the score update rule. -/
def clampScore (x : Rat) : Rat := max 0 (min 100 x)

/-- Modelled from the spec: the score update rule of section 4.2 with EMA
weights 0.7 and 0.3. -/
def updateScore (score : Rat) (o : Outcome) : Rat :=
  clampScore (score * (7 / 10) + (if o = Outcome.healthy then 100 else 0) * (3 / 10))

/-- Modelled from the spec: derived status — healthy when the score is at
least 70, degraded when in [50, 70), unhealthy when the score is below 50
or the consecutive-failure count is at least 2 (section 4.2). -/
def derivedStatus (h : HealthSummary) : DerivedHealth :=
  if h.consecutiveFailures ≥ 2 then DerivedHealth.unhealthy
  else if h.healthScore < 50 then DerivedHealth.unhealthy
  else if h.healthScore < 70 then DerivedHealth.degraded
  else DerivedHealth.healthy

/-- Modelled from the spec: the health summary created on an agent's first
probe result, with the score initialized to 100 (section 4.2). -/
def initialSummary : HealthSummary :=
  { healthScore := 100, latencies := [], avgLatency := 0, consecutiveFailures := 0 }

/-- Modelled from the spec: fold an optional latency observation into the
rolling average over the last 20 observations (section 4.2). -/
def foldLatency (h : HealthSummary) (latencyMs : Option Rat) : HealthSummary :=
  match latencyMs with
  | none => h
  | some l =>
    let ls := (l :: h.latencies).take 20
    { h with latencies := ls, avgLatency := (ls.foldl (fun a b => a + b) 0) / (ls.length : Rat) }

/-- Modelled from the spec: per-agent state HealthMonitor acts on — the
registry lifecycle status plus the health summary, absent before the
first probe result (sections 3 and 4.2). -/
structure MonitorAgent where
  status : AgentStatus
  summary : Option HealthSummary
deriving DecidableEq

/-- Modelled from the spec: AgentRegistry.deactivate as delegated to by the
auto-disable rule — sets the lifecycle status to inactive; on an already
inactive agent this is a no-op (section 4.2). -/
def deactivate (a : MonitorAgent) : MonitorAgent :=
  { a with status := AgentStatus.inactive }

/-- Modelled from the spec: HealthMonitor.recordCheck of section 4.2 — the
score update rule, the consecutive-failure counter incrementing on an
unhealthy outcome and resetting on a healthy one, the latency fold, and
the auto-disable delegation once the consecutive-failure count reaches 3.
The record_health_check stored procedure implementing this is not under
src/. -/
def recordCheck (a : MonitorAgent) (o : Outcome) (latencyMs : Option Rat) : MonitorAgent :=
  let h0 := a.summary.getD initialSummary
  let h1 : HealthSummary :=
    { h0 with healthScore := updateScore h0.healthScore o,
              consecutiveFailures :=
                if o = Outcome.healthy then 0 else h0.consecutiveFailures + 1 }
  let h2 := foldLatency h1 latencyMs
  let a1 : MonitorAgent := { a with summary := some h2 }
  if h2.consecutiveFailures ≥ 3 then deactivate a1 else a1

/- ================================================================
   SessionRouter (spec section 4.3)
   ================================================================ -/

/-- Modelled from the spec: the Agent record of section 3 as read by the
routing candidate selection — identity, type tag, lifecycle status,
session counter against capacity, health data and registration order.
The get_or_create_session stored procedure reading it is not under
src/. -/
structure RAgent where
  agentId : Nat
  agentType : String
  status : AgentStatus
  currentSessions : Nat
  maxSessions : Nat
  healthScore : Rat
  consecutiveFailures : Nat
  registeredAt : Nat
deriving DecidableEq

/-- Modelled from the spec: the Session record of section 3 — identity,
caller key, requested agent type, owning agent, integrity token,
append-only history, activity timestamp and active flag. -/
structure RSession where
  sessionId : Nat
  callerKey : String
  agentType : String
  agentId : Nat
  integrityToken : String
  history : List String
  lastActivity : Nat
  isActive : Bool
deriving DecidableEq

/-- Modelled from the spec: the durable state SessionRouter and
FailoverCoordinator act on. -/
structure RouterState where
  agents : List RAgent
  sessions : List RSession
  nextSessionId : Nat
deriving DecidableEq

/-- Modelled from the spec: routing errors of sections 4.3, 4.4 and 7. -/
inductive RouterError
  | noAvailableAgent
  | notFound
deriving DecidableEq

/-- Modelled from the spec: the derived health status of an agent as used
by candidate filtering, from its health score and consecutive-failure
count by the rule of section 4.2. -/
def agentDerivedHealth (a : RAgent) : DerivedHealth :=
  if a.consecutiveFailures ≥ 2 then DerivedHealth.unhealthy
  else if a.healthScore < 50 then DerivedHealth.unhealthy
  else if a.healthScore < 70 then DerivedHealth.degraded
  else DerivedHealth.healthy

/-- Modelled from the spec: the ranking of section 4.3 — health score
descending, then fewest current sessions, then earliest registration. -/
def betterCandidate (a b : RAgent) : Bool :=
  if a.healthScore ≠ b.healthScore then decide (b.healthScore < a.healthScore)
  else if a.currentSessions ≠ b.currentSessions then decide (a.currentSessions < b.currentSessions)
  else decide (a.registeredAt < b.registeredAt)

/-- Modelled from the spec: the highest-ranked candidate of a list under
the section 4.3 ordering. -/
def pickBest : List RAgent → Option RAgent
  | [] => none
  | a :: rest =>
    match pickBest rest with
    | none => some a
    | some b => some (if betterCandidate b a then b else a)

/-- Modelled from the spec: the candidate set of section 4.3 — agents with
matching type and active status, restricted to those under capacity
unless no agent satisfies capacity, in which case capacity is ignored as
a soft constraint. -/
def routerCandidates (st : RouterState) (agentType : String) : List RAgent :=
  let base := st.agents.filter (fun a =>
    a.agentType == agentType && a.status == AgentStatus.active)
  let withCap := base.filter (fun a => a.currentSessions < a.maxSessions)
  if withCap.isEmpty then base else withCap

/-- Modelled from the spec: the lookup for an existing active session for
the (callerKey, agentType) idempotency key (sections 3 and 4.3). -/
def findActiveSession (st : RouterState) (callerKey agentType : String) : Option RSession :=
  st.sessions.find? (fun s =>
    s.isActive && s.callerKey == callerKey && s.agentType == agentType)

/-- Modelled from the spec: the integrity token as a one-way function of
the session id, a process-wide secret and a creation-time nonce
(section 4.3); the derivation is kept symbolic as a tagged string. -/
def integrityTokenOf (sessionId : Nat) (secret : String) (nonce : Nat) : String :=
  "tok." ++ toString sessionId ++ "." ++ secret ++ "." ++ toString nonce

/-- Modelled from the spec: SessionRouter.getOrCreateSession of section
4.3 — return an existing active session for the pair unchanged, even if
its current agent is degraded; otherwise select the best candidate,
fail with NoAvailableAgentError when the candidate set is empty, and on
success create the session, derive its token and increment the chosen
agent's session counter.  The get_or_create_session stored procedure
implementing this is not under src/. -/
def getOrCreateSession (st : RouterState) (callerKey agentType : String)
    (secret : String) (nonce now : Nat) : Except RouterError (RSession × RouterState) :=
  match findActiveSession st callerKey agentType with
  | some s => Except.ok (s, st)
  | none =>
    match pickBest (routerCandidates st agentType) with
    | none => Except.error RouterError.noAvailableAgent
    | some a =>
      let sid := st.nextSessionId
      let s : RSession :=
        { sessionId := sid, callerKey := callerKey, agentType := agentType,
          agentId := a.agentId, integrityToken := integrityTokenOf sid secret nonce,
          history := [], lastActivity := now, isActive := true }
      let agents := st.agents.map (fun b =>
        if b.agentId == a.agentId then { b with currentSessions := b.currentSessions + 1 } else b)
      Except.ok (s, { agents := agents, sessions := s :: st.sessions, nextSessionId := sid + 1 })

/- ================================================================
   FailoverCoordinator (spec section 4.4)
   ================================================================ -/

/-- Modelled from the spec: the session lookup of failover. -/
def findSession (st : RouterState) (sessionId : Nat) : Option RSession :=
  st.sessions.find? (fun s => s.sessionId == sessionId)

/-- Modelled from the spec: the replacement candidate set of section 4.4 —
the section 4.3 candidate set further excluding the session's current
owner and any agent currently flagged unhealthy. -/
def failoverCandidates (st : RouterState) (s : RSession) : List RAgent :=
  let base := st.agents.filter (fun a =>
    a.agentType == s.agentType && a.status == AgentStatus.active
      && !(a.agentId == s.agentId)
      && !(agentDerivedHealth a == DerivedHealth.unhealthy))
  let withCap := base.filter (fun a => a.currentSessions < a.maxSessions)
  if withCap.isEmpty then base else withCap

/-- Modelled from the spec: FailoverCoordinator.failover of section 4.4 —
NotFoundError on an unknown or inactive session; a no-op success when
the current owner is already healthy (idempotence of re-invocation
after a successful move); otherwise the best eligible replacement is
chosen, the owning-agent field is reassigned with both session counters
adjusted, and the conversation history and the rest of the session are
left untouched; NoAvailableAgentError leaves the session on its current
owner.  The failover_session_to_healthy_agent stored procedure
implementing this is not under src/. -/
def failover (st : RouterState) (sessionId : Nat) : Except RouterError (Nat × RouterState) :=
  match findSession st sessionId with
  | none => Except.error RouterError.notFound
  | some s =>
    if !s.isActive then Except.error RouterError.notFound
    else if (st.agents.find? (fun a => a.agentId == s.agentId)).elim false
              (fun a => agentDerivedHealth a == DerivedHealth.healthy) then
      Except.ok (s.agentId, st)
    else
      match pickBest (failoverCandidates st s) with
      | none => Except.error RouterError.noAvailableAgent
      | some b =>
        let agents := st.agents.map (fun a =>
          if a.agentId == s.agentId then { a with currentSessions := a.currentSessions - 1 }
          else if a.agentId == b.agentId then { a with currentSessions := a.currentSessions + 1 }
          else a)
        let sessions := st.sessions.map (fun t =>
          if t.sessionId == sessionId then { t with agentId := b.agentId } else t)
        Except.ok (b.agentId, { st with agents := agents, sessions := sessions })

/- ================================================================
   CircuitBreaker (spec section 4.5)
   ================================================================ -/

/-- Modelled from the spec: the breaker state of section 3 (opened stands
for the open state, which is a reserved word). -/
inductive CBState
  | closed
  | opened
  | halfOpen
deriving DecidableEq

/-- Modelled from the spec: the per-key CircuitBreakerState record of
section 3 — the sliding window of recent outcomes (most recent first),
the state, the time the breaker last opened, the current cool-down
duration, and whether the single half-open trial is in flight. -/
structure Breaker where
  window : List Bool
  state : CBState
  openedAt : Nat
  cooldown : Nat
  probeInFlight : Bool
deriving DecidableEq

/-- Modelled from the spec: the bounded window size (last 5 events). -/
def cbWindowSize : Nat := 5

/-- Modelled from the spec: the failure threshold of the closed-to-open
transition. -/
def cbFailureThreshold : Nat := 5

/-- Modelled from the spec: the base cool-down duration (seconds). -/
def cbBaseCooldown : Nat := 30

/-- Modelled from the spec: the bound on the doubling cool-down. -/
def cbMaxCooldown : Nat := 480

/-- Modelled from the spec: the state a key holds before any event is
recorded for it (created lazily on first recorded event). -/
def freshBreaker : Breaker :=
  { window := [], state := CBState.closed, openedAt := 0,
    cooldown := cbBaseCooldown, probeInFlight := false }

/-- Modelled from the spec: the failure count within the sliding window. -/
def windowFailures (w : List Bool) : Nat :=
  (w.filter (fun b => !b)).length

/-- Modelled from the spec: CircuitBreaker.recordEvent of section 4.5 —
append to the bounded window; closed goes open once failures within the
window reach 5, starting the cool-down at its base; a half-open probe
success closes the breaker, a half-open probe failure re-opens it with
the cool-down doubled up to the bound. -/
def recordEvent (b : Breaker) (now : Nat) (success : Bool) : Breaker :=
  let w := (success :: b.window).take cbWindowSize
  match b.state with
  | CBState.closed =>
    if windowFailures w ≥ cbFailureThreshold then
      { b with window := w, state := CBState.opened, openedAt := now, cooldown := cbBaseCooldown }
    else
      { b with window := w }
  | CBState.halfOpen =>
    if success then
      { b with window := w, state := CBState.closed,
               cooldown := cbBaseCooldown, probeInFlight := false }
    else
      { b with window := w, state := CBState.opened, openedAt := now,
               cooldown := min (b.cooldown * 2) cbMaxCooldown, probeInFlight := false }
  | CBState.opened =>
    { b with window := w }

/-- Modelled from the spec: the pair check returns (section 4.5). -/
structure CheckResult where
  state : CBState
  canProceed : Bool
deriving DecidableEq

/-- Modelled from the spec: CircuitBreaker.check of section 4.5 on one
breaker — canProceed is true for closed and false for open; once the
cool-down has elapsed the breaker turns half-open and a single trial is
permitted, with concurrent callers told canProceed is false until the
trial resolves. -/
def check (b : Breaker) (now : Nat) : CheckResult × Breaker :=
  match b.state with
  | CBState.closed => ({ state := CBState.closed, canProceed := true }, b)
  | CBState.opened =>
    if b.openedAt + b.cooldown ≤ now then
      ({ state := CBState.halfOpen, canProceed := true },
       { b with state := CBState.halfOpen, probeInFlight := true })
    else
      ({ state := CBState.opened, canProceed := false }, b)
  | CBState.halfOpen =>
    if b.probeInFlight then
      ({ state := CBState.halfOpen, canProceed := false }, b)
    else
      ({ state := CBState.halfOpen, canProceed := true }, { b with probeInFlight := true })

/-- Modelled from the spec: the store of breakers keyed by (component,
endpoint), created lazily on first recorded event and never deleted. -/
structure CBStore where
  entries : List ((String × String) × Breaker)
deriving DecidableEq

/-- Key equality test used by the store operations. -/
def cbKeyMatches (k : String × String) (e : (String × String) × Breaker) : Bool :=
  e.1.1 == k.1 && e.1.2 == k.2

/-- Modelled from the spec: the breaker recorded for a key, if any. -/
def lookupBreaker (st : CBStore) (k : String × String) : Option Breaker :=
  (st.entries.find? (cbKeyMatches k)).map Prod.snd

/-- Modelled from the spec: recordEvent on the keyed store — the key's
breaker is created lazily from the fresh state on its first event. -/
def recordCircuitBreakerEvent (st : CBStore) (k : String × String) (now : Nat)
    (success : Bool) : CBStore :=
  match lookupBreaker st k with
  | none => { entries := (k, recordEvent freshBreaker now success) :: st.entries }
  | some b =>
    { entries := st.entries.map (fun e =>
        if cbKeyMatches k e then (e.1, recordEvent b now success) else e) }

/-- Modelled from the spec: check on the keyed store; a key with no
recorded events reads as closed and may proceed. -/
def checkCircuitBreaker (st : CBStore) (k : String × String) (now : Nat) :
    CheckResult × CBStore :=
  match lookupBreaker st k with
  | none => ({ state := CBState.closed, canProceed := true }, st)
  | some b =>
    let r := check b now
    (r.1, { entries := st.entries.map (fun e =>
             if cbKeyMatches k e then (e.1, r.2) else e) })

/- ================================================================
   ErrorLedger / RetryScheduler (spec section 4.6)
   ================================================================ -/

/-- Modelled from the spec: error severity (section 3). -/
inductive Severity
  | low
  | medium
  | high
deriving DecidableEq

/-- Modelled from the spec: the max-retry budget by severity — high 5,
medium 3, low 1 (section 4.6). -/
def maxRetriesFor : Severity → Nat
  | Severity.high => 5
  | Severity.medium => 3
  | Severity.low => 1

/-- Modelled from the spec: the backoff base, on the order of seconds. -/
def errBackoffBase : Nat := 5

/-- Modelled from the spec: backoff(n) = base * 2 ^ n; the random ±20%
jitter of section 4.6 is abstracted away, as no claim depends on it. -/
def backoffSeconds (n : Nat) : Nat := errBackoffBase * 2 ^ n

/-- Modelled from the spec: the ErrorEntry record of section 3 — severity,
retry count, the derived max retries, the next scheduled retry time,
and the resolved and terminally-failed flags.  The log_error and
record_retry_attempt stored procedures maintaining it are not under
src/. -/
structure ErrorEntry where
  severity : Severity
  retryCount : Nat
  maxRetries : Nat
  nextRetryAt : Option Nat
  resolved : Bool
  failed : Bool
deriving DecidableEq

/-- Modelled from the spec: ErrorLedger.logError of section 4.6 — a new
unresolved entry with the severity-derived budget and the first retry
scheduled at now + backoff(0). -/
def logError (sev : Severity) (now : Nat) : ErrorEntry :=
  { severity := sev, retryCount := 0, maxRetries := maxRetriesFor sev,
    nextRetryAt := some (now + backoffSeconds 0), resolved := false, failed := false }

/-- Modelled from the spec: ErrorLedger.recordRetryAttempt of section 4.6 —
success marks the entry resolved and cancels future scheduling; failure
increments the retry count and either reschedules at now +
backoff(retryCount) while below the budget or, on reaching it, marks the
entry terminally failed with no further scheduling. -/
def recordRetryAttempt (e : ErrorEntry) (success : Bool) (now : Nat) : ErrorEntry :=
  if success then
    { e with resolved := true, nextRetryAt := none }
  else
    let rc := e.retryCount + 1
    if rc < e.maxRetries then
      { e with retryCount := rc, nextRetryAt := some (now + backoffSeconds rc) }
    else
      { e with retryCount := rc, failed := true, nextRetryAt := none }

/- ================================================================
   Claim-as-written comparison definitions and concrete inputs
   ================================================================ -/

/-- Following the words of claim C9 (for comparison with the source
validator): registration fails with a validation error exactly when the
name length is outside [3, 100], or the endpoint is not a well-formed
http(s) URL of fewer than 500 characters, or the agent type is outside
the allowed set, or the capacity is outside [1, 1000]. -/
def c9ClaimedCondition (d : RegData) : Bool :=
  ((d.agent_name.getD "").length < 3 || (d.agent_name.getD "").length > 100)
  || !(validate_endpoint_url (d.endpoint_url.getD ""))
  || !(ALLOWED_AGENT_TYPES.contains (d.agent_type.getD ""))
  || (pyToInt (d.max_concurrent_sessions.getD (PyVal.pyInt 10)) < 1
      || pyToInt (d.max_concurrent_sessions.getD (PyVal.pyInt 10)) > 1000)

/-- The amended rejection condition for claim C9, read off the source
validator: a missing or empty required field, a name length outside
[3, 100], a type outside the allowed set, a malformed endpoint, a
present max_concurrent_sessions that is not an integer in [1, 1000]
(Python booleans counting as integers), or present capabilities that
are not a list. -/
def c9AmendedCondition (d : RegData) : Bool :=
  (d.agent_name.getD "" == "")
  || (d.agent_type.getD "" == "")
  || (d.endpoint_url.getD "" == "")
  || ((d.agent_name.getD "").length < 3 || (d.agent_name.getD "").length > 100)
  || !(ALLOWED_AGENT_TYPES.contains (d.agent_type.getD ""))
  || !(validate_endpoint_url (d.endpoint_url.getD ""))
  || (!(pyIsInt (d.max_concurrent_sessions.getD (PyVal.pyInt 10)))
      || pyToInt (d.max_concurrent_sessions.getD (PyVal.pyInt 10)) < 1
      || pyToInt (d.max_concurrent_sessions.getD (PyVal.pyInt 10)) > 1000)
  || !(pyIsList (d.capabilities.getD (PyVal.pyList [])))

/-- A well-formed registration request (used to evaluate the register
handler on a successful path). -/
def c1Request : RegData :=
  { registration_secret := some "letmein", agent_name := some "My Agent",
    agent_type := some "general", endpoint_url := some "https://agent.example.com",
    max_concurrent_sessions := some (PyVal.pyInt 10),
    capabilities := some (PyVal.pyList []), metadata := some "v1" }

/-- A registration request whose four claim-C9 constraints are all
satisfied but whose capabilities field is an integer, not a list. -/
def c9CxRequest : RegData :=
  { registration_secret := some "letmein", agent_name := some "My Agent",
    agent_type := some "general", endpoint_url := some "https://agent.example.com",
    max_concurrent_sessions := some (PyVal.pyInt 10),
    capabilities := some (PyVal.pyInt 5), metadata := none }

/-- A fully valid registration request for the claim C9 witness. -/
def c9ValidRequest : RegData :=
  { registration_secret := some "letmein", agent_name := some "probe-agent",
    agent_type := some "mcp", endpoint_url := some "http://localhost:5000/chat",
    max_concurrent_sessions := none, capabilities := none, metadata := none }

/-- An update request that only renames the agent, to the one-character
name x. -/
def c10Update : UpdateData :=
  { agent_name := some "x", endpoint_url := none,
    max_concurrent_sessions := none, capabilities := none, metadata := none }

/-- A registration request identical to a valid one except that its name
is the one-character name x. -/
def c10RegProbe : RegData :=
  { registration_secret := some "letmein", agent_name := some "x",
    agent_type := some "general", endpoint_url := some "https://agent.example.com",
    max_concurrent_sessions := none, capabilities := none, metadata := none }

/-- A database state with one active agent owning one active session. -/
def c4Db : DbState :=
  { agent_registry := [{ agent_id := "a1", status := "active", last_seen := 0 }],
    agent_sessions := [{ session_id := "s1", agent_id := "a1", is_active := true,
                         conversation_context := ["hello"], last_activity := 0,
                         total_messages_received := 1 }] }

/-- A health-monitor state two consecutive failures deep. -/
def c2Agent : MonitorAgent :=
  { status := AgentStatus.active,
    summary := some { healthScore := 49, latencies := [], avgLatency := 0,
                      consecutiveFailures := 2 } }

/-- A router state with a single degraded agent owning an active session
(health score 55, between 50 and 70). -/
def c3State : RouterState :=
  { agents := [{ agentId := 1, agentType := "general", status := AgentStatus.active,
                 currentSessions := 1, maxSessions := 10, healthScore := 55,
                 consecutiveFailures := 0, registeredAt := 0 }],
    sessions := [{ sessionId := 7, callerKey := "+15555550001", agentType := "general",
                   agentId := 1, integrityToken := "tok.7", history := ["hi"],
                   lastActivity := 3, isActive := true }],
    nextSessionId := 8 }

/-- The active session of the single-agent router state. -/
def c3Session : RSession :=
  { sessionId := 7, callerKey := "+15555550001", agentType := "general",
    agentId := 1, integrityToken := "tok.7", history := ["hi"],
    lastActivity := 3, isActive := true }

/-- A router state that mirrors the failover integration scenario: an
unhealthy owner, a healthy replacement, and one active session with
two history entries. -/
def c5State : RouterState :=
  { agents := [{ agentId := 1, agentType := "general", status := AgentStatus.active,
                 currentSessions := 1, maxSessions := 10, healthScore := 30,
                 consecutiveFailures := 0, registeredAt := 0 },
               { agentId := 2, agentType := "general", status := AgentStatus.active,
                 currentSessions := 0, maxSessions := 10, healthScore := 95,
                 consecutiveFailures := 0, registeredAt := 1 }],
    sessions := [{ sessionId := 5, callerKey := "+15555550003", agentType := "general",
                   agentId := 1, integrityToken := "tok.5", history := ["hi", "there"],
                   lastActivity := 0, isActive := true }],
    nextSessionId := 6 }

/-- The state after the failover of the mirrored scenario. -/
def c5StateAfter : RouterState :=
  { agents := [{ agentId := 1, agentType := "general", status := AgentStatus.active,
                 currentSessions := 0, maxSessions := 10, healthScore := 30,
                 consecutiveFailures := 0, registeredAt := 0 },
               { agentId := 2, agentType := "general", status := AgentStatus.active,
                 currentSessions := 1, maxSessions := 10, healthScore := 95,
                 consecutiveFailures := 0, registeredAt := 1 }],
    sessions := [{ sessionId := 5, callerKey := "+15555550003", agentType := "general",
                   agentId := 2, integrityToken := "tok.5", history := ["hi", "there"],
                   lastActivity := 0, isActive := true }],
    nextSessionId := 6 }

/-- An error-ledger entry of high severity with four retries consumed. -/
def c7Entry4 : ErrorEntry :=
  { severity := Severity.high, retryCount := 4, maxRetries := 5,
    nextRetryAt := some 80, resolved := false, failed := false }

/- ================================================================
   Helper lemmas
   ================================================================ -/

/-- Mapping a transformation that preserves a projection commutes away
under a map of that projection. -/
theorem map_proj_of_preserved {α β : Type} (f : α → α) (p : α → β)
    (h : ∀ a, p (f a) = p a) (l : List α) : (l.map f).map p = l.map p := by
  induction l with
  | nil => rfl
  | cons a t ih => simp [h, ih]

/-- Folding an optional latency into a health summary does not change its
consecutive-failure count. -/
theorem foldLatency_consecutiveFailures (h : HealthSummary) (l : Option Rat) :
    (foldLatency h l).consecutiveFailures = h.consecutiveFailures := by
  cases l <;> rfl

/- ================================================================
   Claim C1
   ================================================================ -/

/-- Claim C1: the claim states that a successful registration stores only a
one-way derivation of the presented key and never hands the raw key to
the persistence layer.  The handler contradicts this: on a successful
registration it hands the raw generated key to the register_agent stored
procedure as its credential parameter, and the bcrypt digest it computes
is handed nowhere.  This theorem evaluates the handler at a concrete
valid request. -/
theorem c1_register_hands_raw_key_to_db :
    (register_agent "letmein" c1Request "generated-key-123" "agent-0001").1
      = RegisterResponse.created "agent-0001" "generated-key-123"
    ∧ ((allDbParams (register_agent "letmein" c1Request "generated-key-123" "agent-0001").2).any
        (dbParamIsRawKey "generated-key-123")) = true
    ∧ ((allDbParams (register_agent "letmein" c1Request "generated-key-123" "agent-0001").2).any
        (dbParamIsHashOfKey "generated-key-123")) = false := by
  refine ⟨rfl, rfl, rfl⟩

/- ================================================================
   Claim C8
   ================================================================ -/

/-- Claim C8 counterexample: the claim states that every outbound probe or
dispatch that times out is recorded both as an unhealthy health check
and as a circuit-breaker failure event.  At a concrete timeout, the
health probe records only the unhealthy health check — its effect list
holds no circuit-breaker failure event — and the chat dispatch records
nothing at all. -/
theorem c8_timeout_records_no_breaker_event_cx :
    send_health_check (some "a1") TransportOutcome.timeout 5
      = Except.ok (false, [DbEffect.recordHealthCheck "a1" "unhealthy"
          none none (some "No valid MCP response")])
    ∧ ([DbEffect.recordHealthCheck "a1" "unhealthy" none none
          (some "No valid MCP response")].any isCBFailureEvent) = false
    ∧ send_chat_request (some "a1") (some ["hi"]) "s1" "hello" TransportOutcome.timeout
      = Except.ok (none, []) := by
  refine ⟨rfl, rfl, rfl⟩

/-- Claim C8 (amended): a health probe that times out is recorded as an
unhealthy health check for the target agent and the call returns false
rather than raising; a chat dispatch that times out returns no reply
and records nothing; neither path records a circuit-breaker failure
event, and neither propagates the timeout as a synchronous exception
(both results are ok values, never errors). -/
theorem c8_timeout_amended (aid sid msg : String) (rt : Nat) (ctx : List String) :
    send_mcp_message TransportOutcome.timeout = Except.ok none
    ∧ send_health_check (some aid) TransportOutcome.timeout rt
        = Except.ok (false, [DbEffect.recordHealthCheck aid "unhealthy"
            none none (some "No valid MCP response")])
    ∧ ([DbEffect.recordHealthCheck aid "unhealthy" none none
          (some "No valid MCP response")].any isCBFailureEvent) = false
    ∧ send_chat_request (some aid) (some ctx) sid msg TransportOutcome.timeout
        = Except.ok (none, []) := by
  refine ⟨rfl, rfl, rfl, rfl⟩

/- ================================================================
   Claim C10
   ================================================================ -/

/-- Claim C10: the update validator checks endpoint URL, capacity and
capabilities when present but imposes no constraint on agent_name — its
result is independent of the name value — so an update request carrying
the one-character name x passes validation, the handler then writes
that name to the agent row, its length is outside [3, 100], and the
registration validator would reject the same name. -/
theorem c10_update_name_unvalidated :
    (∀ (d : UpdateData) (n1 n2 : String),
      validate_agent_update { d with agent_name := some n1 }
        = validate_agent_update { d with agent_name := some n2 })
    ∧ (validate_agent_update c10Update).1 = true
    ∧ (∀ (a : AgentRegistryRow) (now : Nat),
        (apply_agent_update a c10Update now).agent_name = "x")
    ∧ ("x".length < 3 ∨ 100 < "x".length)
    ∧ (validate_agent_registration c10RegProbe).1 = false := by
  refine ⟨?_, rfl, fun a now => rfl, Or.inl (by decide), rfl⟩
  intro d n1 n2
  simp [validate_agent_update]

/- ================================================================
   Claim C4
   ================================================================ -/

/-- Claim C4 counterexample: the claim states that deactivate marks every
active session owned by the agent as eligible for failover without
ending those sessions.  On a concrete state with one active session
owned by the agent, the handler's second UPDATE sets the session's
is_active flag to false — the session is ended, and a session whose
active flag is cleared is precisely one failover refuses with
NotFoundError. -/
theorem c4_deactivate_ends_sessions_cx :
    (c4Db.agent_sessions.find? (fun s => s.session_id == "s1")).map PSessionRow.is_active
      = some true
    ∧ ((deactivate_agent c4Db "a1" 7).agent_sessions.find?
        (fun s => s.session_id == "s1")).map PSessionRow.is_active
      = some false := by
  refine ⟨rfl, rfl⟩

/-- Claim C4 (amended): deactivate sets the agent's lifecycle status to
inactive and ends every active session owned by that agent by clearing
its active flag; it does not move any session — every session keeps its
identity, its owning agent and its conversation history. -/
theorem c4_deactivate_amended (db : DbState) (aid : String) (now : Nat) :
    (∀ a ∈ (deactivate_agent db aid now).agent_registry,
      a.agent_id = aid → a.status = "inactive")
    ∧ (∀ s ∈ (deactivate_agent db aid now).agent_sessions,
        s.agent_id = aid → s.is_active = false)
    ∧ (deactivate_agent db aid now).agent_sessions.map
        (fun s => (s.session_id, s.agent_id, s.conversation_context))
      = db.agent_sessions.map (fun s => (s.session_id, s.agent_id, s.conversation_context)) := by
  refine ⟨?_, ?_, ?_⟩
  · intro a ha haid
    simp only [deactivate_agent, List.mem_map] at ha
    obtain ⟨a0, _, rfl⟩ := ha
    by_cases h : (a0.agent_id == aid) = true
    · simp [h]
    · simp only [h, if_neg, Bool.false_eq_true, not_false_eq_true, if_false] at haid ⊢
      exact absurd (by simpa using haid) (by simpa using h)
  · intro s hs hsid
    simp only [deactivate_agent, List.mem_map] at hs
    obtain ⟨s0, _, rfl⟩ := hs
    by_cases h : (s0.agent_id == aid && s0.is_active) = true
    · simp [h]
    · simp only [h, Bool.false_eq_true, not_false_eq_true, if_false] at hsid ⊢
      have hb : (s0.agent_id == aid) = true := by simpa using hsid
      cases hact : s0.is_active
      · rfl
      · exact absurd (by simp [hb, hact]) h
  · simp only [deactivate_agent]
    exact map_proj_of_preserved _ _ (fun s => by by_cases h : (s.agent_id == aid && s.is_active) = true <;> simp [h]) _

/-- Claim C4 witness: the amended deactivation theorem applied to the
concrete one-agent, one-session state. -/
theorem c4_deactivate_amended_witness :
    ({ session_id := "s1", agent_id := "a1", is_active := false,
       conversation_context := ["hello"], last_activity := 0,
       total_messages_received := 1 } : PSessionRow).is_active = false :=
  (c4_deactivate_amended c4Db "a1" 7).2.1
    { session_id := "s1", agent_id := "a1", is_active := false,
      conversation_context := ["hello"], last_activity := 0,
      total_messages_received := 1 }
    (by decide) rfl

/- ================================================================
   Claim C2
   ================================================================ -/

/-- Claim C2: recording an unhealthy check whose resulting
consecutive-failure count reaches 3 deterministically sets the agent's
registry status to inactive, and recording a further unhealthy check on
an agent that is already inactive leaves its status inactive (the
delegated deactivate is a no-op on it). -/
theorem c2_auto_disable_at_three_failures (a : MonitorAgent) (lat : Option Rat) :
    ((a.summary.getD initialSummary).consecutiveFailures + 1 ≥ 3 →
      (recordCheck a Outcome.unhealthy lat).status = AgentStatus.inactive)
    ∧ (a.status = AgentStatus.inactive →
      (recordCheck a Outcome.unhealthy lat).status = AgentStatus.inactive) := by
  constructor
  · intro h3
    simp only [recordCheck, foldLatency_consecutiveFailures, deactivate]
    rw [if_pos]
    simpa [foldLatency_consecutiveFailures] using h3
  · intro hin
    simp only [recordCheck, deactivate, reduceCtorEq, if_false]
    split
    · rfl
    · exact hin

/-- Claim C2 witness: the auto-disable theorem applied to an active agent
two consecutive failures deep — the third unhealthy check disables it —
and to an agent already inactive. -/
theorem c2_auto_disable_at_three_failures_witness :
    (recordCheck c2Agent Outcome.unhealthy none).status = AgentStatus.inactive
    ∧ (recordCheck { c2Agent with status := AgentStatus.inactive }
        Outcome.unhealthy none).status = AgentStatus.inactive :=
  ⟨(c2_auto_disable_at_three_failures c2Agent none).1 (by decide),
   (c2_auto_disable_at_three_failures { c2Agent with status := AgentStatus.inactive } none).2 rfl⟩

/- ================================================================
   Claim C3
   ================================================================ -/

/-- Claim C3: while an active session exists for a (callerKey, agentType)
pair, getOrCreateSession returns that session unchanged with the state
untouched — the same session identity and the same owning agent, with
no second session created — and a second call with equal arguments
(whatever its secret, nonce or clock) returns the identical result.  No
assumption is made about the health of the session's current agent, so
the result also holds when that agent is degraded. -/
theorem c3_get_or_create_session_idempotent (st : RouterState)
    (callerKey agentType secret1 secret2 : String) (nonce1 now1 nonce2 now2 : Nat)
    (s : RSession) (h : findActiveSession st callerKey agentType = some s) :
    getOrCreateSession st callerKey agentType secret1 nonce1 now1 = Except.ok (s, st)
    ∧ getOrCreateSession st callerKey agentType secret2 nonce2 now2 = Except.ok (s, st) := by
  constructor <;> simp [getOrCreateSession, h]

/-- Claim C3 witness: the idempotence theorem applied to the concrete
router state whose single agent is degraded (health score 55) and owns
the active session. -/
theorem c3_get_or_create_session_idempotent_witness :
    c3State.agents.map agentDerivedHealth = [DerivedHealth.degraded]
    ∧ getOrCreateSession c3State "+15555550001" "general" "secret-a" 1 100
        = Except.ok (c3Session, c3State)
    ∧ getOrCreateSession c3State "+15555550001" "general" "secret-b" 2 200
        = Except.ok (c3Session, c3State) :=
  ⟨by decide,
   (c3_get_or_create_session_idempotent c3State "+15555550001" "general"
      "secret-a" "secret-b" 1 100 2 200 c3Session (by decide)).1,
   (c3_get_or_create_session_idempotent c3State "+15555550001" "general"
      "secret-a" "secret-b" 1 100 2 200 c3Session (by decide)).2⟩

/- ================================================================
   Claim C5
   ================================================================ -/

/-- Claim C5: a successful failover leaves every session's conversation
history untouched — the per-session histories of the state are the same
lists, in the same order, before and after, so no entry is removed,
truncated, replayed or reordered, and in particular the history length
after the failover is equal to (hence at least) the length before. -/
theorem c5_failover_preserves_history (st : RouterState) (sid r : Nat)
    (st2 : RouterState) (h : failover st sid = Except.ok (r, st2)) :
    st2.sessions.map RSession.history = st.sessions.map RSession.history
    ∧ st2.sessions.length = st.sessions.length := by
  simp only [failover] at h
  split at h
  · exact absurd h (by simp)
  · split at h
    · exact absurd h (by simp)
    · split at h
      · simp only [Except.ok.injEq, Prod.mk.injEq] at h
        obtain ⟨-, hst⟩ := h
        subst hst
        exact ⟨rfl, rfl⟩
      · split at h
        · exact absurd h (by simp)
        · simp only [Except.ok.injEq, Prod.mk.injEq] at h
          obtain ⟨-, hst⟩ := h
          subst hst
          constructor
          · exact map_proj_of_preserved _ _
              (fun t => by by_cases ht : (t.sessionId == sid) = true <;> simp [ht]) _
          · simp

/-- Claim C5 witness: the history-preservation theorem applied to the
mirrored integration scenario — an unhealthy owner, a healthy
replacement and a two-entry history — whose failover succeeds and moves
the session to agent 2. -/
theorem c5_failover_preserves_history_witness :
    c5StateAfter.sessions.map RSession.history = c5State.sessions.map RSession.history
    ∧ c5StateAfter.sessions.length = c5State.sessions.length :=
  c5_failover_preserves_history c5State 5 2 c5StateAfter (by rfl)

/- ================================================================
   Claim C6
   ================================================================ -/

/-- The store-update map of a breaker operation commutes with find? on the
same key, since the update preserves each entry's key. -/
theorem find_map_breaker_update (l : List ((String × String) × Breaker))
    (k : String × String) (b2 : Breaker) :
    (l.map (fun e => if cbKeyMatches k e then (e.1, b2) else e)).find? (cbKeyMatches k)
      = (l.find? (cbKeyMatches k)).map (fun e => (e.1, b2)) := by
  induction l with
  | nil => rfl
  | cons e t ih =>
    by_cases h : cbKeyMatches k e = true
    · have hpres : cbKeyMatches k (e.1, b2) = true := h
      simp [List.find?_cons, h, hpres]
    · have hpres : cbKeyMatches k e = false := by simpa using h
      simp [List.find?_cons, hpres, ih]

/-- Recording an event on a key with no recorded breaker creates its
breaker lazily from the fresh state. -/
theorem lookup_record_fresh (st : CBStore) (k : String × String) (now : Nat)
    (success : Bool) (h : lookupBreaker st k = none) :
    lookupBreaker (recordCircuitBreakerEvent st k now success) k
      = some (recordEvent freshBreaker now success) := by
  have hk : cbKeyMatches k (k, recordEvent freshBreaker now success) = true := by
    simp [cbKeyMatches]
  simp only [recordCircuitBreakerEvent, h]
  simp only [lookupBreaker, List.find?_cons_of_pos _ hk]
  rfl

/-- Recording an event on a key with a recorded breaker steps that
breaker. -/
theorem lookup_record_found (st : CBStore) (k : String × String) (now : Nat)
    (success : Bool) (b : Breaker) (h : lookupBreaker st k = some b) :
    lookupBreaker (recordCircuitBreakerEvent st k now success) k
      = some (recordEvent b now success) := by
  simp only [recordCircuitBreakerEvent, h]
  simp only [lookupBreaker, find_map_breaker_update]
  simp only [lookupBreaker] at h
  cases hf : st.entries.find? (cbKeyMatches k) with
  | none => rw [hf] at h; cases h
  | some e0 => rfl

/-- Claim C6: on a (component, endpoint) key with no previously recorded
events, recording 5 consecutive failure events trips the breaker, and a
check before the cool-down elapses returns state open with canProceed
false; moreover whenever a check observes the open state it returns
canProceed false, so canProceed stays false while the breaker remains
open. -/
theorem c6_five_failures_open_breaker (st : CBStore) (k : String × String)
    (t1 t2 t3 t4 t5 t : Nat) (hfresh : lookupBreaker st k = none)
    (ht : t < t5 + cbBaseCooldown) :
    ((checkCircuitBreaker
        (recordCircuitBreakerEvent
          (recordCircuitBreakerEvent
            (recordCircuitBreakerEvent
              (recordCircuitBreakerEvent
                (recordCircuitBreakerEvent st k t1 false) k t2 false)
              k t3 false)
            k t4 false)
          k t5 false)
        k t).1
      = { state := CBState.opened, canProceed := false })
    ∧ (∀ (b : Breaker) (now : Nat),
        (check b now).1.state = CBState.opened → (check b now).1.canProceed = false) := by
  constructor
  · have l1 := lookup_record_fresh st k t1 false hfresh
    have l2 := lookup_record_found _ k t2 false _ l1
    have l3 := lookup_record_found _ k t3 false _ l2
    have l4 := lookup_record_found _ k t4 false _ l3
    have l5 := lookup_record_found _ k t5 false _ l4
    have hb5 : recordEvent (recordEvent (recordEvent (recordEvent
        (recordEvent freshBreaker t1 false) t2 false) t3 false) t4 false) t5 false
        = { window := [false, false, false, false, false], state := CBState.opened,
            openedAt := t5, cooldown := cbBaseCooldown, probeInFlight := false } := rfl
    rw [hb5] at l5
    simp only [checkCircuitBreaker, l5, check]
    rw [if_neg]
    unfold cbBaseCooldown at ht ⊢
    omega
  · intro b now h
    obtain ⟨w, s, oa, cd, pif⟩ := b
    cases s
    · simp [check] at h
    · by_cases hc : oa + cd ≤ now
      · simp [check, hc] at h
      · simp [check, hc]
    · cases pif <;> simp [check] at h

/-- Claim C6 witness: the breaker theorem applied to the empty store and
the key of the integration scenario, with all five failures at time 0
and the check at time 1. -/
theorem c6_five_failures_open_breaker_witness :
    (checkCircuitBreaker
        (recordCircuitBreakerEvent
          (recordCircuitBreakerEvent
            (recordCircuitBreakerEvent
              (recordCircuitBreakerEvent
                (recordCircuitBreakerEvent { entries := [] } ("test-api", "/test") 0 false)
                ("test-api", "/test") 0 false)
              ("test-api", "/test") 0 false)
            ("test-api", "/test") 0 false)
          ("test-api", "/test") 0 false)
        ("test-api", "/test") 1).1
      = { state := CBState.opened, canProceed := false } :=
  (c6_five_failures_open_breaker { entries := [] } ("test-api", "/test")
    0 0 0 0 0 1 rfl (by decide)).1

/- ================================================================
   Claim C7
   ================================================================ -/

/-- Claim C7: for a high-severity error entry the retry budget is 5; a
failed attempt whose incremented count is still below 5 increments the
retry count and schedules the next retry at now plus the backoff for
that count; the failed attempt whose incremented count reaches 5 leaves
the entry terminally failed with no next retry time; and a successful
attempt marks the entry resolved and cancels future scheduling. -/
theorem c7_high_severity_retry_budget (e : ErrorEntry) (now1 now2 now3 : Nat)
    (hsev : e.severity = Severity.high)
    (hmax : e.maxRetries = maxRetriesFor e.severity) :
    maxRetriesFor Severity.high = 5
    ∧ (e.retryCount + 1 < 5 →
        (recordRetryAttempt e false now1).retryCount = e.retryCount + 1
        ∧ (recordRetryAttempt e false now1).nextRetryAt
            = some (now1 + backoffSeconds (e.retryCount + 1))
        ∧ (recordRetryAttempt e false now1).failed = e.failed)
    ∧ (e.retryCount + 1 ≥ 5 →
        (recordRetryAttempt e false now2).retryCount = e.retryCount + 1
        ∧ (recordRetryAttempt e false now2).failed = true
        ∧ (recordRetryAttempt e false now2).nextRetryAt = none)
    ∧ ((recordRetryAttempt e true now3).resolved = true
        ∧ (recordRetryAttempt e true now3).nextRetryAt = none) := by
  rw [hsev] at hmax
  have hmax5 : e.maxRetries = 5 := hmax
  refine ⟨rfl, ?_, ?_, ?_, ?_⟩
  · intro hlt
    have hc : e.retryCount + 1 < e.maxRetries := by rw [hmax5]; exact hlt
    simp [recordRetryAttempt, hc]
  · intro hge
    have hc : ¬(e.retryCount + 1 < e.maxRetries) := by rw [hmax5]; omega
    simp [recordRetryAttempt, hc]
  · simp [recordRetryAttempt]
  · simp [recordRetryAttempt]

/-- Claim C7 witness: the budget theorem applied to a fresh high-severity
entry (first failed attempt schedules a retry) and to the entry four
retries deep (the fifth failed attempt is terminal). -/
theorem c7_high_severity_retry_budget_witness :
    (recordRetryAttempt (logError Severity.high 0) false 7).retryCount = 1
    ∧ (recordRetryAttempt (logError Severity.high 0) false 7).nextRetryAt = some (7 + 10)
    ∧ (recordRetryAttempt c7Entry4 false 9).failed = true
    ∧ (recordRetryAttempt c7Entry4 false 9).nextRetryAt = none :=
  ⟨((c7_high_severity_retry_budget (logError Severity.high 0) 7 0 0 rfl rfl).2.1
      (by decide)).1,
   ((c7_high_severity_retry_budget (logError Severity.high 0) 7 0 0 rfl rfl).2.1
      (by decide)).2.1,
   ((c7_high_severity_retry_budget c7Entry4 0 9 0 rfl rfl).2.2.1 (by decide)).2.1,
   ((c7_high_severity_retry_budget c7Entry4 0 9 0 rfl rfl).2.2.1 (by decide)).2.2⟩

/- ================================================================
   Claim C9
   ================================================================ -/

/-- Claim C9 counterexample: the claim characterizes validation failure by
exactly four conditions — name length, endpoint well-formedness, agent
type and capacity.  A request satisfying all four (none of the claimed
conditions holds) is still rejected, because its capabilities field is
an integer rather than a list, so the claimed characterization is not
an exact one. -/
theorem c9_exactly_when_fails_cx :
    (validate_agent_registration c9CxRequest).1 = false
    ∧ c9ClaimedCondition c9CxRequest = false := by
  refine ⟨rfl, rfl⟩

/-- Claim C9 (amended): given a correct, non-empty registration secret,
the register handler fails with a validation error, executing no
database statement (no state change), exactly when the amended
condition holds: a required field (name, type, endpoint) is missing or
empty, or the name length is outside [3, 100], or the agent type is
outside the allowed set, or the endpoint fails the http(s) URL check
under 500 characters, or max_concurrent_sessions is present and is not
an integer in [1, 1000] (booleans counting as integers), or
capabilities is present and not a list; any input satisfying none of
these passes validation and is registered. -/
theorem c9_validation_amended (secretCfg : String) (d : RegData)
    (api_key agent_id : String) (hsec : d.registration_secret = some secretCfg)
    (hne : secretCfg ≠ "") :
    ((validate_agent_registration d).1 = false ↔ c9AmendedCondition d = true)
    ∧ ((validate_agent_registration d).1 = false →
        register_agent secretCfg d api_key agent_id
          = (RegisterResponse.badRequest ((validate_agent_registration d).2.getD ""), []))
    ∧ ((validate_agent_registration d).1 = true →
        (register_agent secretCfg d api_key agent_id).1
          = RegisterResponse.created agent_id api_key) := by
  have hgate : (d.registration_secret.getD "" == ""
      || !(d.registration_secret.getD "" == secretCfg)) = false := by
    rw [hsec]
    simp [Option.getD, hne]
  refine ⟨?_, ?_, ?_⟩
  · simp only [validate_agent_registration, c9AmendedCondition]
    split_ifs with h1 h2 h3 h4 h5 h6 h7 h8 <;> simp_all
  · intro hv
    simp only [register_agent, hgate, Bool.false_eq_true, if_false, hv]
    simp
  · intro hv
    simp only [register_agent, hgate, Bool.false_eq_true, if_false, hv]
    simp

/-- Claim C9 witness: the amended characterization applied to a fully
valid concrete request, which passes validation and is registered. -/
theorem c9_validation_amended_witness :
    c9AmendedCondition c9ValidRequest = false
    ∧ (register_agent "letmein" c9ValidRequest "key-1" "agent-9").1
        = RegisterResponse.created "agent-9" "key-1" :=
  ⟨by decide,
   (c9_validation_amended "letmein" c9ValidRequest "key-1" "agent-9" rfl
      (by decide)).2.2 (by decide)⟩
